import Mathlib

/-!
Shallow embedding of `src/main.py`, the YouTube aggregation backend.

Conventions of the embedding:
* Python's module-level mutable state (`_cache`, `YOUTUBE_API_KEY`) is passed
  explicitly and returned where it is updated.
* `time.time()` is an explicit `now : Nat` parameter; the TTL comparison
  `time.time() - ts > CACHE_TTL_SECONDS` uses truncated `Nat` subtraction,
  which agrees with the float comparison whenever `now ≥ ts`, and also when
  `now < ts` (both sides then take the not-expired branch).
* Each upstream HTTP response is a parameter of the operation (status code,
  raw body text, and the decoded fields the Python code actually reads).
* Every operation returns `(result, final cache, effect trace)`, where the
  trace records cache reads, cache writes and outbound HTTP requests in
  program order.
* Fallible code returns `Except Err`, with `Err` carrying the HTTP status
  and detail string of the raised `HTTPException`.
-/

set_option autoImplicit false

/-- Python truthiness of an optional string (`None` and `""` are falsy). -/
def truthyStr : Option String → Bool
  | Option.none => false
  | some s => !(s == "")

/-- `ChannelStatistics` record built by `get_channel_statistics`. -/
structure ChannelStats where
  subscriberCount : Nat
  viewCount : Nat
  videoCount : Nat
  title : Option String
  thumbnails : List (String × String)
  customUrl : Option String
  description : Option String
deriving Repr, DecidableEq

/-- `VideoSummary` dictionary produced by the video-list operations.
Fields absent from a given Python dict are `none`. -/
structure Video where
  id : Option String
  title : Option String
  thumbnail : Option String
  publishedAt : Option String
  viewCount : Option Nat
deriving Repr, DecidableEq

/-- The dynamically typed values stored in the module-level `_cache`. -/
inductive Value where
  | none
  | str (s : String)
  | stats (s : ChannelStats)
  | videos (l : List Video)
deriving Repr, DecidableEq

/-- Python truthiness of a cached value (`None`, `""` and `[]` are falsy;
a statistics dict is non-empty, hence truthy). -/
def truthyVal : Value → Bool
  | Value.none => false
  | Value.str s => !(s == "")
  | Value.stats _ => true
  | Value.videos l => !l.isEmpty

/-- One `_cache` entry: insertion timestamp and stored data. -/
structure Entry where
  ts : Nat
  data : Value
deriving Repr, DecidableEq

/-- The module-level `_cache` dict, as an association list. -/
abbrev Cache := List (String × Entry)

/-- Dictionary lookup `_cache.get(key)`. -/
def cacheFind : Cache → String → Option Entry
  | [], _ => Option.none
  | (k, e) :: rest, key => if k = key then some e else cacheFind rest key

/-- Dictionary removal `_cache.pop(key, None)`. -/
def cacheErase : Cache → String → Cache
  | [], _ => []
  | (k, e) :: rest, key =>
    if k = key then cacheErase rest key else (k, e) :: cacheErase rest key

/-- `CACHE_TTL_SECONDS = 20 * 60`. -/
def CACHE_TTL_SECONDS : Nat := 20 * 60

/-- `_cache_get`: absent or expired keys yield `None`; an expired entry is
popped from the store as a side effect. Returns the possibly-updated cache. -/
def _cache_get (c : Cache) (key : String) (now : Nat) : Option Value × Cache :=
  match cacheFind c key with
  | Option.none => (Option.none, c)
  | some e =>
    if now - e.ts > CACHE_TTL_SECONDS then (Option.none, cacheErase c key)
    else (some e.data, c)

/-- `_cache_set`: unconditionally (over)writes the entry with the current
timestamp. -/
def _cache_set (c : Cache) (key : String) (now : Nat) (data : Value) : Cache :=
  (key, ⟨now, data⟩) :: cacheErase c key

/-- `_ensure_api_key`: re-reads the environment only when the module-level
global is falsy, then reports whether the global is truthy. Takes the current
global `g` and the current environment value `env`, returns the boolean result
together with the updated global. -/
def _ensure_api_key (g env : Option String) : Bool × Option String :=
  let g1 := if truthyStr g then g else env
  (truthyStr g1, g1)

/-- HTTPException surrogate: status code and detail message. -/
structure Err where
  status : Nat
  detail : String
deriving Repr, DecidableEq

/-- Observable effects of one operation, in program order. -/
inductive Eff where
  | cacheRead (key : String)
  | cacheWrite (key : String)
  | httpGet (endpoint : String)
deriving Repr, DecidableEq

/-- Python `str.lower()` (the handles in play are ASCII). -/
def pyLower (s : String) : String := String.mk (s.toList.map Char.toLower)

/-- Python `s.strip(c)`: removes `c` from BOTH ends of the string. -/
def pyStrip (c : Char) (s : String) : String :=
  String.mk (((s.toList.dropWhile (fun a => a = c)).reverse.dropWhile
    (fun a => a = c)).reverse)

/-- Python slice `s[:n]` for a non-negative literal `n`. -/
def pyTake (s : String) (n : Nat) : String := String.mk (s.toList.take n)

/-- Python `list(range(1, m+1))` for an `int` bound `m`. -/
def pyRange1 (m : Int) : List Nat :=
  if 1 ≤ m then List.range' 1 m.toNat else []

/-- Python slice `l[:m]` for an arbitrary `int` bound `m` (a negative bound
counts from the end, clamped at zero). -/
def pySliceTo {α : Type} (l : List α) (m : Int) : List α :=
  if 0 ≤ m then l.take m.toNat else l.take (l.length - (-m).toNat)

/-! ### Upstream response shapes (the fields the Python code reads) -/

/-- Response of `GET /channels?part=id&forHandle=...`: status, raw body, and
the ids of the decoded `items`. -/
structure ChannelsIdResponse where
  status : Nat
  text : String
  items : List String
deriving Repr, DecidableEq

/-- One item of a `part=statistics,snippet` channels response, with the
optional fields the code reads via `.get`. -/
structure StatsItem where
  subscriberCount : Option Nat
  viewCount : Option Nat
  videoCount : Option Nat
  title : Option String
  thumbnails : List (String × String)
  customUrl : Option String
  description : Option String
deriving Repr, DecidableEq

/-- Response of `GET /channels?part=statistics,snippet&id=...`. -/
structure StatsResponse where
  status : Nat
  text : String
  items : List StatsItem
deriving Repr, DecidableEq

/-- One item of a `part=contentDetails` channels response:
`contentDetails.relatedPlaylists.uploads`, possibly absent. -/
structure UploadsItem where
  uploads : Option String
deriving Repr, DecidableEq

/-- Response of `GET /channels?part=contentDetails&id=...`. -/
structure UploadsResponse where
  status : Nat
  text : String
  items : List UploadsItem
deriving Repr, DecidableEq

/-- One item of a `part=snippet` search response, with the fields read by
`get_latest_videos` (there, `id.videoId`, `snippet.title` and
`snippet.publishedAt` are accessed with mandatory indexing). -/
structure SearchItem where
  videoId : String
  title : String
  thumbHigh : Option String
  thumbMedium : Option String
  publishedAt : String
deriving Repr, DecidableEq

/-- Response of `GET /search?...&order=date` used by `get_latest_videos`. -/
structure SearchResponse where
  status : Nat
  text : String
  items : List SearchItem
deriving Repr, DecidableEq

/-- One item of the `part=id` search response used by `get_popular_videos`;
`id.videoId` is accessed with `.get`, so it may be absent. -/
structure PopSearchItem where
  videoId : Option String
deriving Repr, DecidableEq

/-- Response of the first (pool) request of `get_popular_videos`. -/
structure PopSearchResponse where
  status : Nat
  text : String
  items : List PopSearchItem
deriving Repr, DecidableEq

/-- One item of the `part=snippet,statistics` videos response used by
`get_popular_videos`, all fields read via `.get`. -/
structure VideoItem where
  id : Option String
  title : Option String
  thumbHigh : Option String
  thumbMedium : Option String
  viewCount : Option Nat
  publishedAt : Option String
deriving Repr, DecidableEq

/-- Response of the second (statistics) request of `get_popular_videos`. -/
structure VideosResponse where
  status : Nat
  text : String
  items : List VideoItem
deriving Repr, DecidableEq

/-! ### The five Upstream Client operations -/

/-- The hard-coded demo-handle table inside `resolve_channel_id`. -/
def fallback_map (h : String) : Option String :=
  if h = "@UNBEQUEM-o2w" then some "UC_demo_unbequem"
  else if h = "@BEQUEM-g" then some "UC_demo_bequem"
  else Option.none

/-- `fallback_map.get(handle, f"UC_demo_{handle.strip('@').lower()}")`. -/
def fallbackChannelId (h : String) : String :=
  (fallback_map h).getD ("UC_demo_" ++ pyLower (pyStrip '@' h))

/-- Read a cached resolution result back as the string the code returns. -/
def valueAsStr : Value → String
  | Value.str s => s
  | _ => ""

/-- Cache-miss continuation of `resolve_channel_id` (everything after the
`_cache_get` guard failed), on the cache state left by the guard. -/
def resolveMiss (h key : String) (g env : Option String) (c : Cache) (now : Nat)
    (resp : ChannelsIdResponse) : Except Err String × Cache × List Eff :=
  if !(_ensure_api_key g env).1 then
    let cid := fallbackChannelId h
    (Except.ok cid, _cache_set c key now (Value.str cid),
      [Eff.cacheRead key, Eff.cacheWrite key])
  else if resp.status ≠ 200 then
    (Except.error ⟨502, "YouTube API error: " ++ pyTake resp.text 200⟩, c,
      [Eff.cacheRead key, Eff.httpGet "channels"])
  else
    match resp.items with
    | [] =>
      (Except.error ⟨404, "Channel not found for handle"⟩, c,
        [Eff.cacheRead key, Eff.httpGet "channels"])
    | cid :: _ =>
      (Except.ok cid, _cache_set c key now (Value.str cid),
        [Eff.cacheRead key, Eff.httpGet "channels", Eff.cacheWrite key])

/-- `resolve_channel_id(handle, channel_id)`. -/
def resolve_channel_id (handle channel_id : Option String)
    (g env : Option String) (c : Cache) (now : Nat)
    (resp : ChannelsIdResponse) : Except Err String × Cache × List Eff :=
  if truthyStr channel_id then (Except.ok (channel_id.getD ""), c, [])
  else if !truthyStr handle then
    (Except.error ⟨400, "Provide either handle or channelId"⟩, c, [])
  else
    let h := handle.getD ""
    let key := "resolve:" ++ h
    match _cache_get c key now with
    | (some v, c1) =>
      if truthyVal v then (Except.ok (valueAsStr v), c1, [Eff.cacheRead key])
      else resolveMiss h key g env c1 now resp
    | (Option.none, c1) => resolveMiss h key g env c1 now resp

/-- The fixed demo statistics record of `get_channel_statistics` (keys absent
from the Python demo dict are `none` / `[]` here). -/
def demoStats : ChannelStats :=
  ⟨12345, 987654, 2, some "Demo Channel", [], Option.none, Option.none⟩

/-- Transformation of one upstream statistics item into the output record
(numeric fields coerced with default 0). -/
def statsOfItem (it : StatsItem) : ChannelStats :=
  ⟨it.subscriberCount.getD 0, it.viewCount.getD 0, it.videoCount.getD 0,
    it.title, it.thumbnails, it.customUrl, it.description⟩

/-- Read a cached statistics value back as the record the code returns. -/
def valueAsStats : Value → ChannelStats
  | Value.stats s => s
  | _ => ⟨0, 0, 0, Option.none, [], Option.none, Option.none⟩

/-- Cache-miss continuation of `get_channel_statistics`. -/
def statsMiss (key : String) (g env : Option String) (c : Cache) (now : Nat)
    (resp : StatsResponse) : Except Err ChannelStats × Cache × List Eff :=
  if !(_ensure_api_key g env).1 then
    (Except.ok demoStats, _cache_set c key now (Value.stats demoStats),
      [Eff.cacheRead key, Eff.cacheWrite key])
  else if resp.status ≠ 200 then
    (Except.error ⟨502, "YouTube API error: " ++ pyTake resp.text 200⟩, c,
      [Eff.cacheRead key, Eff.httpGet "channels"])
  else
    match resp.items with
    | [] =>
      (Except.error ⟨404, "Channel not found"⟩, c,
        [Eff.cacheRead key, Eff.httpGet "channels"])
    | it :: _ =>
      let out := statsOfItem it
      (Except.ok out, _cache_set c key now (Value.stats out),
        [Eff.cacheRead key, Eff.httpGet "channels", Eff.cacheWrite key])

/-- `get_channel_statistics(channel_id)`. -/
def get_channel_statistics (channel_id : String) (g env : Option String)
    (c : Cache) (now : Nat) (resp : StatsResponse) :
    Except Err ChannelStats × Cache × List Eff :=
  let key := "stats:" ++ channel_id
  match _cache_get c key now with
  | (some v, c1) =>
    if truthyVal v then (Except.ok (valueAsStats v), c1, [Eff.cacheRead key])
    else statsMiss key g env c1 now resp
  | (Option.none, c1) => statsMiss key g env c1 now resp

/-- Read a cached uploads-playlist value back as the optional string the code
returns (only non-empty strings pass the truthiness guard). -/
def valueAsOptStr : Value → Option String
  | Value.str s => some s
  | _ => Option.none

/-- Cache-miss continuation of `get_uploads_playlist_id`. Note the live
branch returns `None` WITHOUT caching when the upstream has no items. -/
def uploadsMiss (channel_id key : String) (g env : Option String) (c : Cache)
    (now : Nat) (resp : UploadsResponse) :
    Except Err (Option String) × Cache × List Eff :=
  if !(_ensure_api_key g env).1 then
    let demo := "PL_demo_" ++ channel_id
    (Except.ok (some demo), _cache_set c key now (Value.str demo),
      [Eff.cacheRead key, Eff.cacheWrite key])
  else if resp.status ≠ 200 then
    (Except.error ⟨502, "YouTube API error: " ++ pyTake resp.text 200⟩, c,
      [Eff.cacheRead key, Eff.httpGet "channels"])
  else
    match resp.items with
    | [] =>
      (Except.ok Option.none, c, [Eff.cacheRead key, Eff.httpGet "channels"])
    | it :: _ =>
      let pid := it.uploads
      let v := match pid with
        | some s => Value.str s
        | Option.none => Value.none
      (Except.ok pid, _cache_set c key now v,
        [Eff.cacheRead key, Eff.httpGet "channels", Eff.cacheWrite key])

/-- `get_uploads_playlist_id(channel_id)`. -/
def get_uploads_playlist_id (channel_id : String) (g env : Option String)
    (c : Cache) (now : Nat) (resp : UploadsResponse) :
    Except Err (Option String) × Cache × List Eff :=
  let key := "uploads:" ++ channel_id
  match _cache_get c key now with
  | (some v, c1) =>
    if truthyVal v then
      (Except.ok (valueAsOptStr v), c1, [Eff.cacheRead key])
    else uploadsMiss channel_id key g env c1 now resp
  | (Option.none, c1) => uploadsMiss channel_id key g env c1 now resp

/-- The demo thumbnail URL used by both fallback video generators. -/
def demoThumb : String := "https://i.ytimg.com/vi/dQw4w9WgXcQ/hqdefault.jpg"

/-- Fallback list of `get_latest_videos`. -/
def demoLatestVideos (m : Int) : List Video :=
  (pyRange1 m).map fun i =>
    ⟨some ("demo_video_" ++ toString i), some ("Demo Video " ++ toString i),
      some demoThumb, some "2024-01-01T00:00:00Z", some 0⟩

/-- Thumbnail selection of `get_latest_videos`: prefer `high`, else
`medium`, else absent. -/
def searchThumb (it : SearchItem) : Option String :=
  match it.thumbHigh with
  | some u => some u
  | Option.none => it.thumbMedium

/-- Transformation of the search items into `VideoSummary` dicts
(`viewCount` key absent in this operation). -/
def latestOfItems (items : List SearchItem) : List Video :=
  items.map fun it =>
    ⟨some it.videoId, some it.title, searchThumb it, some it.publishedAt,
      Option.none⟩

/-- Read a cached video list back as the list the code returns. -/
def valueAsVideos : Value → List Video
  | Value.videos l => l
  | _ => []

/-- Cache-miss continuation of `get_latest_videos`. Note the live branch
caches and returns one entry per upstream item, with no truncation. -/
def latestMiss (key : String) (max_results : Int) (g env : Option String)
    (c : Cache) (now : Nat) (resp : SearchResponse) :
    Except Err (List Video) × Cache × List Eff :=
  if !(_ensure_api_key g env).1 then
    let demo := demoLatestVideos max_results
    (Except.ok demo, _cache_set c key now (Value.videos demo),
      [Eff.cacheRead key, Eff.cacheWrite key])
  else if resp.status ≠ 200 then
    (Except.error ⟨502, "YouTube API error: " ++ pyTake resp.text 200⟩, c,
      [Eff.cacheRead key, Eff.httpGet "search"])
  else
    let videos := latestOfItems resp.items
    (Except.ok videos, _cache_set c key now (Value.videos videos),
      [Eff.cacheRead key, Eff.httpGet "search", Eff.cacheWrite key])

/-- `get_latest_videos(channel_id, max_results)`. -/
def get_latest_videos (channel_id : String) (max_results : Int)
    (g env : Option String) (c : Cache) (now : Nat) (resp : SearchResponse) :
    Except Err (List Video) × Cache × List Eff :=
  let key := "latest:" ++ channel_id ++ ":" ++ toString max_results
  match _cache_get c key now with
  | (some v, c1) =>
    if truthyVal v then (Except.ok (valueAsVideos v), c1, [Eff.cacheRead key])
    else latestMiss key max_results g env c1 now resp
  | (Option.none, c1) => latestMiss key max_results g env c1 now resp

/-- Fallback list of `get_popular_videos`: view counts
`1000 * (max_results - i + 1)`, descending by construction. -/
def demoPopularVideos (m : Int) : List Video :=
  (pyRange1 m).map fun i =>
    ⟨some ("popular_demo_" ++ toString i), some ("Popular Demo " ++ toString i),
      some demoThumb, Option.none, some (1000 * (m.toNat - i + 1))⟩

/-- Candidate pool extraction: ids of the first search response whose
`id.videoId` is present and truthy. -/
def popIds (items : List PopSearchItem) : List String :=
  items.filterMap fun it =>
    match it.videoId with
    | some s => if s == "" then Option.none else some s
    | Option.none => Option.none

/-- Thumbnail selection of `get_popular_videos` (same high/medium rule). -/
def videoThumb (it : VideoItem) : Option String :=
  match it.thumbHigh with
  | some u => some u
  | Option.none => it.thumbMedium

/-- Enrichment of the second response's items into `VideoSummary` dicts with
a coerced `viewCount` (default 0). -/
def enrichedOfItems (items : List VideoItem) : List Video :=
  items.map fun it =>
    ⟨it.id, it.title, videoThumb it, it.publishedAt, some (it.viewCount.getD 0)⟩

/-- The sort key `x.get("viewCount", 0)`. -/
def viewKey (v : Video) : Nat := v.viewCount.getD 0

/-- Stable descending insertion: place `v` after every earlier element whose
key is strictly larger, before the first whose key is ≤. -/
def insertDesc (v : Video) : List Video → List Video
  | [] => [v]
  | w :: ws =>
    if viewKey v < viewKey w then w :: insertDesc v ws else v :: w :: ws

/-- Model of Python `list.sort(key=lambda x: x.get("viewCount", 0),
reverse=True)`: a stable sort by view count descending. Python's sort is
specified exactly by being a sorted-descending, tie-stable permutation, and
this insertion sort is one, so the two agree extensionally. -/
def sortByViewDesc : List Video → List Video
  | [] => []
  | v :: vs => insertDesc v (sortByViewDesc vs)

/-- Cache-miss continuation of `get_popular_videos`. Note the live branch
returns `[]` WITHOUT caching when the candidate pool is empty, and performs
the second request only on a non-empty pool. -/
def popularMiss (key : String) (max_results : Int) (g env : Option String)
    (c : Cache) (now : Nat) (resp1 : PopSearchResponse)
    (resp2 : VideosResponse) : Except Err (List Video) × Cache × List Eff :=
  if !(_ensure_api_key g env).1 then
    let demo := demoPopularVideos max_results
    (Except.ok demo, _cache_set c key now (Value.videos demo),
      [Eff.cacheRead key, Eff.cacheWrite key])
  else if resp1.status ≠ 200 then
    (Except.error ⟨502, "YouTube API error: " ++ pyTake resp1.text 200⟩, c,
      [Eff.cacheRead key, Eff.httpGet "search"])
  else
    let ids := popIds resp1.items
    if ids.isEmpty then
      (Except.ok [], c, [Eff.cacheRead key, Eff.httpGet "search"])
    else if resp2.status ≠ 200 then
      (Except.error ⟨502, "YouTube API error: " ++ pyTake resp2.text 200⟩, c,
        [Eff.cacheRead key, Eff.httpGet "search", Eff.httpGet "videos"])
    else
      let enriched := enrichedOfItems resp2.items
      let popular := pySliceTo (sortByViewDesc enriched) max_results
      (Except.ok popular, _cache_set c key now (Value.videos popular),
        [Eff.cacheRead key, Eff.httpGet "search", Eff.httpGet "videos",
          Eff.cacheWrite key])

/-- `get_popular_videos(channel_id, max_results)`. -/
def get_popular_videos (channel_id : String) (max_results : Int)
    (g env : Option String) (c : Cache) (now : Nat)
    (resp1 : PopSearchResponse) (resp2 : VideosResponse) :
    Except Err (List Video) × Cache × List Eff :=
  let key := "popular:" ++ channel_id ++ ":" ++ toString max_results
  match _cache_get c key now with
  | (some v, c1) =>
    if truthyVal v then (Except.ok (valueAsVideos v), c1, [Eff.cacheRead key])
    else popularMiss key max_results g env c1 now resp1 resp2
  | (Option.none, c1) => popularMiss key max_results g env c1 now resp1 resp2

/-! ### HTTP boundary: maxResults parsing and the endpoint handlers -/

/-- FastAPI validation of the overview endpoint's
`maxResults: int = Query(default=6, ge=1, le=12)`: out-of-range values are
rejected with a 422 validation error before the handler body runs. -/
def overview_parse_maxResults (q : Option Int) : Except Err Int :=
  match q with
  | Option.none => Except.ok 6
  | some v =>
    if 1 ≤ v ∧ v ≤ 12 then Except.ok v
    else Except.error ⟨422, "Input should be between 1 and 12"⟩

/-- Handler of `GET /api/youtube/videos/latest`: its `maxResults: int = 6`
declares no bounds, so any integer is accepted and passed through. -/
def youtube_latest (handle channelId : Option String) (maxResults : Option Int)
    (g env : Option String) (c : Cache) (now : Nat)
    (rresp : ChannelsIdResponse) (sresp : SearchResponse) :
    Except Err (String × List Video) × Cache × List Eff :=
  let m := maxResults.getD 6
  match resolve_channel_id handle channelId g env c now rresp with
  | (Except.error er, c1, t1) => (Except.error er, c1, t1)
  | (Except.ok cid, c1, t1) =>
    match get_latest_videos cid m g env c1 now sresp with
    | (Except.error er, c2, t2) => (Except.error er, c2, t1 ++ t2)
    | (Except.ok vids, c2, t2) => (Except.ok (cid, vids), c2, t1 ++ t2)

/-- Handler of `GET /api/youtube/videos/popular`: its `maxResults: int = 6`
declares no bounds, so any integer is accepted and passed through. -/
def youtube_popular (handle channelId : Option String) (maxResults : Option Int)
    (g env : Option String) (c : Cache) (now : Nat)
    (rresp : ChannelsIdResponse) (p1 : PopSearchResponse)
    (p2 : VideosResponse) :
    Except Err (String × List Video) × Cache × List Eff :=
  let m := maxResults.getD 6
  match resolve_channel_id handle channelId g env c now rresp with
  | (Except.error er, c1, t1) => (Except.error er, c1, t1)
  | (Except.ok cid, c1, t1) =>
    match get_popular_videos cid m g env c1 now p1 p2 with
    | (Except.error er, c2, t2) => (Except.error er, c2, t1 ++ t2)
    | (Except.ok vids, c2, t2) => (Except.ok (cid, vids), c2, t1 ++ t2)

/-- Handler of `GET /api/youtube/overview`, including the FastAPI boundary
validation of its `maxResults` query parameter. -/
def youtube_overview (handle channelId : Option String)
    (maxResults : Option Int) (g env : Option String) (c : Cache) (now : Nat)
    (rresp : ChannelsIdResponse) (stresp : StatsResponse)
    (sresp : SearchResponse) (p1 : PopSearchResponse) (p2 : VideosResponse) :
    Except Err (String × ChannelStats × List Video × List Video) × Cache ×
      List Eff :=
  match overview_parse_maxResults maxResults with
  | Except.error er => (Except.error er, c, [])
  | Except.ok m =>
    match resolve_channel_id handle channelId g env c now rresp with
    | (Except.error er, c1, t1) => (Except.error er, c1, t1)
    | (Except.ok cid, c1, t1) =>
      match get_channel_statistics cid g env c1 now stresp with
      | (Except.error er, c2, t2) => (Except.error er, c2, t1 ++ t2)
      | (Except.ok st, c2, t2) =>
        match get_latest_videos cid m g env c2 now sresp with
        | (Except.error er, c3, t3) => (Except.error er, c3, t1 ++ t2 ++ t3)
        | (Except.ok la, c3, t3) =>
          match get_popular_videos cid m g env c3 now p1 p2 with
          | (Except.error er, c4, t4) =>
            (Except.error er, c4, t1 ++ t2 ++ t3 ++ t4)
          | (Except.ok po, c4, t4) =>
            (Except.ok (cid, st, la, po), c4, t1 ++ t2 ++ t3 ++ t4)

/-- The rule the specification states for the fallback identifier: strip the
leading `@`, lowercase the remainder, add the fixed prefix. Stated from the
spec's words, for comparison with `fallbackChannelId` from the source. -/
def specFallbackId (h : String) : String :=
  "UC_demo_" ++ pyLower (String.mk (h.toList.dropWhile (fun a => a = '@')))

/-- The HTTP status of a raised error, `none` on a normal return. -/
def resStatus {α : Type} : Except Err α → Option Nat
  | Except.ok _ => Option.none
  | Except.error e => some e.status

/-- Length of a normally returned video list (0 on an error). -/
def lengthOfOk : Except Err (List Video) → Nat
  | Except.ok l => l.length
  | Except.error _ => 0

/-! ### Basic lemmas about the cache and the credential gate -/

theorem cacheFind_erase_self (c : Cache) (key : String) :
    cacheFind (cacheErase c key) key = Option.none := by
  induction c with
  | nil => rfl
  | cons p rest ih =>
    obtain ⟨k, e⟩ := p
    by_cases hk : k = key
    · simp [cacheErase, hk, ih]
    · simp [cacheErase, cacheFind, hk, ih]

theorem cache_get_of_find_none (c : Cache) (key : String) (now : Nat)
    (h : cacheFind c key = Option.none) :
    _cache_get c key now = (Option.none, c) := by
  simp [_cache_get, h]

theorem cache_get_fresh (c : Cache) (key : String) (now : Nat) (e : Entry)
    (h : cacheFind c key = some e) (hts : now - e.ts ≤ CACHE_TTL_SECONDS) :
    _cache_get c key now = (some e.data, c) := by
  simp [_cache_get, h, Nat.not_lt.mpr hts]

theorem cache_get_stale (c : Cache) (key : String) (now : Nat) (e : Entry)
    (h : cacheFind c key = some e) (hts : CACHE_TTL_SECONDS < now - e.ts) :
    _cache_get c key now = (Option.none, cacheErase c key) := by
  simp [_cache_get, h, hts]

theorem ensure_api_key_bool (g env : Option String) :
    (_ensure_api_key g env).1 = (truthyStr g || truthyStr env) := by
  unfold _ensure_api_key
  cases hg : truthyStr g <;> simp [hg]

theorem ensure_api_key_idem (g env env2 : Option String)
    (h : (_ensure_api_key g env).1 = true) :
    (_ensure_api_key (_ensure_api_key g env).2 env2).1 = true := by
  unfold _ensure_api_key at h ⊢
  simp only at h ⊢
  simp [h]

theorem string_append_length_ne (a x : String) (ha : a.length ≠ 0) :
    (a ++ x) ≠ "" := by
  intro hEq
  have h2 := congrArg String.length hEq
  rw [String.length_append] at h2
  have h0 : ("" : String).length = 0 := rfl
  omega

theorem fallbackChannelId_ne_empty (h : String) : fallbackChannelId h ≠ "" := by
  unfold fallbackChannelId fallback_map
  by_cases h1 : h = "@UNBEQUEM-o2w"
  · simp [h1]
  · by_cases h2 : h = "@BEQUEM-g"
    · simp [h1, h2]
    · simp only [h1, h2, if_false, Option.getD]
      exact string_append_length_ne "UC_demo_" _ (by decide)

theorem truthyVal_str_of_ne (s : String) (hs : s ≠ "") :
    truthyVal (Value.str s) = true := by
  simp [truthyVal, hs]

/-! ### Branch lemmas for `resolve_channel_id` -/

theorem resolve_explicit (handle : Option String) (s : String)
    (g env : Option String) (c : Cache) (now : Nat)
    (resp : ChannelsIdResponse) (hs : s ≠ "") :
    resolve_channel_id handle (some s) g env c now resp
      = (Except.ok s, c, []) := by
  simp [resolve_channel_id, truthyStr, hs]

theorem resolve_noargs (handle channel_id g env : Option String) (c : Cache)
    (now : Nat) (resp : ChannelsIdResponse)
    (h1 : truthyStr channel_id = false) (h2 : truthyStr handle = false) :
    resolve_channel_id handle channel_id g env c now resp
      = (Except.error ⟨400, "Provide either handle or channelId"⟩, c, []) := by
  simp [resolve_channel_id, h1, h2]

theorem resolve_hit (h : String) (channel_id g env : Option String)
    (c : Cache) (now : Nat) (resp : ChannelsIdResponse) (e : Entry)
    (hch : truthyStr channel_id = false) (hh : h ≠ "")
    (hf : cacheFind c ("resolve:" ++ h) = some e)
    (hts : now - e.ts ≤ CACHE_TTL_SECONDS) (hv : truthyVal e.data = true) :
    resolve_channel_id (some h) channel_id g env c now resp
      = (Except.ok (valueAsStr e.data), c, [Eff.cacheRead ("resolve:" ++ h)]) := by
  have hsh : truthyStr (some h) = true := by simp [truthyStr, hh]
  simp [resolve_channel_id, hch, hsh,
    cache_get_fresh c ("resolve:" ++ h) now e hf hts, hv]

theorem resolve_miss_eq (h : String) (channel_id g env : Option String)
    (c : Cache) (now : Nat) (resp : ChannelsIdResponse)
    (hch : truthyStr channel_id = false) (hh : h ≠ "")
    (hf : cacheFind c ("resolve:" ++ h) = Option.none) :
    resolve_channel_id (some h) channel_id g env c now resp
      = resolveMiss h ("resolve:" ++ h) g env c now resp := by
  have hsh : truthyStr (some h) = true := by simp [truthyStr, hh]
  simp [resolve_channel_id, hch, hsh,
    cache_get_of_find_none c ("resolve:" ++ h) now hf]

theorem resolve_missFalsy_eq (h : String) (channel_id g env : Option String)
    (c : Cache) (now : Nat) (resp : ChannelsIdResponse) (e : Entry)
    (hch : truthyStr channel_id = false) (hh : h ≠ "")
    (hf : cacheFind c ("resolve:" ++ h) = some e)
    (hts : now - e.ts ≤ CACHE_TTL_SECONDS) (hv : truthyVal e.data = false) :
    resolve_channel_id (some h) channel_id g env c now resp
      = resolveMiss h ("resolve:" ++ h) g env c now resp := by
  have hsh : truthyStr (some h) = true := by simp [truthyStr, hh]
  simp [resolve_channel_id, hch, hsh,
    cache_get_fresh c ("resolve:" ++ h) now e hf hts, hv]

theorem resolveMiss_fallback (h key : String) (g env : Option String)
    (c : Cache) (now : Nat) (resp : ChannelsIdResponse)
    (hk : (_ensure_api_key g env).1 = false) :
    resolveMiss h key g env c now resp
      = (Except.ok (fallbackChannelId h),
          _cache_set c key now (Value.str (fallbackChannelId h)),
          [Eff.cacheRead key, Eff.cacheWrite key]) := by
  simp [resolveMiss, hk]

theorem resolveMiss_live_err (h key : String) (g env : Option String)
    (c : Cache) (now : Nat) (resp : ChannelsIdResponse)
    (hk : (_ensure_api_key g env).1 = true) (hs : resp.status ≠ 200) :
    resolveMiss h key g env c now resp
      = (Except.error ⟨502, "YouTube API error: " ++ pyTake resp.text 200⟩, c,
          [Eff.cacheRead key, Eff.httpGet "channels"]) := by
  simp [resolveMiss, hk, hs]

theorem resolveMiss_live_notfound (h key : String) (g env : Option String)
    (c : Cache) (now : Nat) (resp : ChannelsIdResponse)
    (hk : (_ensure_api_key g env).1 = true) (hs : resp.status = 200)
    (hi : resp.items = []) :
    resolveMiss h key g env c now resp
      = (Except.error ⟨404, "Channel not found for handle"⟩, c,
          [Eff.cacheRead key, Eff.httpGet "channels"]) := by
  simp [resolveMiss, hk, hs, hi]

theorem resolveMiss_live_ok (h key : String) (g env : Option String)
    (c : Cache) (now : Nat) (resp : ChannelsIdResponse) (cid : String)
    (rest : List String) (hk : (_ensure_api_key g env).1 = true)
    (hs : resp.status = 200) (hi : resp.items = cid :: rest) :
    resolveMiss h key g env c now resp
      = (Except.ok cid, _cache_set c key now (Value.str cid),
          [Eff.cacheRead key, Eff.httpGet "channels", Eff.cacheWrite key]) := by
  simp [resolveMiss, hk, hs, hi]

/-! ### Branch lemmas for `get_channel_statistics` -/

theorem stats_hit (cid : String) (g env : Option String) (c : Cache)
    (now : Nat) (resp : StatsResponse) (e : Entry)
    (hf : cacheFind c ("stats:" ++ cid) = some e)
    (hts : now - e.ts ≤ CACHE_TTL_SECONDS) (hv : truthyVal e.data = true) :
    get_channel_statistics cid g env c now resp
      = (Except.ok (valueAsStats e.data), c,
          [Eff.cacheRead ("stats:" ++ cid)]) := by
  simp [get_channel_statistics,
    cache_get_fresh c ("stats:" ++ cid) now e hf hts, hv]

theorem stats_miss_eq (cid : String) (g env : Option String) (c : Cache)
    (now : Nat) (resp : StatsResponse)
    (hf : cacheFind c ("stats:" ++ cid) = Option.none) :
    get_channel_statistics cid g env c now resp
      = statsMiss ("stats:" ++ cid) g env c now resp := by
  simp [get_channel_statistics,
    cache_get_of_find_none c ("stats:" ++ cid) now hf]

theorem stats_missFalsy_eq (cid : String) (g env : Option String) (c : Cache)
    (now : Nat) (resp : StatsResponse) (e : Entry)
    (hf : cacheFind c ("stats:" ++ cid) = some e)
    (hts : now - e.ts ≤ CACHE_TTL_SECONDS) (hv : truthyVal e.data = false) :
    get_channel_statistics cid g env c now resp
      = statsMiss ("stats:" ++ cid) g env c now resp := by
  simp [get_channel_statistics,
    cache_get_fresh c ("stats:" ++ cid) now e hf hts, hv]

theorem statsMiss_fallback (key : String) (g env : Option String) (c : Cache)
    (now : Nat) (resp : StatsResponse)
    (hk : (_ensure_api_key g env).1 = false) :
    statsMiss key g env c now resp
      = (Except.ok demoStats, _cache_set c key now (Value.stats demoStats),
          [Eff.cacheRead key, Eff.cacheWrite key]) := by
  simp [statsMiss, hk]

theorem statsMiss_live_err (key : String) (g env : Option String) (c : Cache)
    (now : Nat) (resp : StatsResponse)
    (hk : (_ensure_api_key g env).1 = true) (hs : resp.status ≠ 200) :
    statsMiss key g env c now resp
      = (Except.error ⟨502, "YouTube API error: " ++ pyTake resp.text 200⟩, c,
          [Eff.cacheRead key, Eff.httpGet "channels"]) := by
  simp [statsMiss, hk, hs]

theorem statsMiss_live_notfound (key : String) (g env : Option String)
    (c : Cache) (now : Nat) (resp : StatsResponse)
    (hk : (_ensure_api_key g env).1 = true) (hs : resp.status = 200)
    (hi : resp.items = []) :
    statsMiss key g env c now resp
      = (Except.error ⟨404, "Channel not found"⟩, c,
          [Eff.cacheRead key, Eff.httpGet "channels"]) := by
  simp [statsMiss, hk, hs, hi]

theorem statsMiss_live_ok (key : String) (g env : Option String) (c : Cache)
    (now : Nat) (resp : StatsResponse) (it : StatsItem)
    (rest : List StatsItem) (hk : (_ensure_api_key g env).1 = true)
    (hs : resp.status = 200) (hi : resp.items = it :: rest) :
    statsMiss key g env c now resp
      = (Except.ok (statsOfItem it),
          _cache_set c key now (Value.stats (statsOfItem it)),
          [Eff.cacheRead key, Eff.httpGet "channels", Eff.cacheWrite key]) := by
  simp [statsMiss, hk, hs, hi]

/-! ### Branch lemmas for `get_uploads_playlist_id` -/

theorem uploads_miss_eq (cid : String) (g env : Option String) (c : Cache)
    (now : Nat) (resp : UploadsResponse)
    (hf : cacheFind c ("uploads:" ++ cid) = Option.none) :
    get_uploads_playlist_id cid g env c now resp
      = uploadsMiss cid ("uploads:" ++ cid) g env c now resp := by
  simp [get_uploads_playlist_id,
    cache_get_of_find_none c ("uploads:" ++ cid) now hf]

theorem uploads_missFalsy_eq (cid : String) (g env : Option String)
    (c : Cache) (now : Nat) (resp : UploadsResponse) (e : Entry)
    (hf : cacheFind c ("uploads:" ++ cid) = some e)
    (hts : now - e.ts ≤ CACHE_TTL_SECONDS) (hv : truthyVal e.data = false) :
    get_uploads_playlist_id cid g env c now resp
      = uploadsMiss cid ("uploads:" ++ cid) g env c now resp := by
  simp [get_uploads_playlist_id,
    cache_get_fresh c ("uploads:" ++ cid) now e hf hts, hv]

theorem uploadsMiss_fallback (cid key : String) (g env : Option String)
    (c : Cache) (now : Nat) (resp : UploadsResponse)
    (hk : (_ensure_api_key g env).1 = false) :
    uploadsMiss cid key g env c now resp
      = (Except.ok (some ("PL_demo_" ++ cid)),
          _cache_set c key now (Value.str ("PL_demo_" ++ cid)),
          [Eff.cacheRead key, Eff.cacheWrite key]) := by
  simp [uploadsMiss, hk]

theorem uploadsMiss_live_noitems (cid key : String) (g env : Option String)
    (c : Cache) (now : Nat) (resp : UploadsResponse)
    (hk : (_ensure_api_key g env).1 = true) (hs : resp.status = 200)
    (hi : resp.items = []) :
    uploadsMiss cid key g env c now resp
      = (Except.ok Option.none, c,
          [Eff.cacheRead key, Eff.httpGet "channels"]) := by
  simp [uploadsMiss, hk, hs, hi]

theorem uploadsMiss_live_ok (cid key : String) (g env : Option String)
    (c : Cache) (now : Nat) (resp : UploadsResponse) (it : UploadsItem)
    (rest : List UploadsItem) (hk : (_ensure_api_key g env).1 = true)
    (hs : resp.status = 200) (hi : resp.items = it :: rest) :
    uploadsMiss cid key g env c now resp
      = (Except.ok it.uploads,
          _cache_set c key now
            (match it.uploads with
              | some s => Value.str s
              | Option.none => Value.none),
          [Eff.cacheRead key, Eff.httpGet "channels", Eff.cacheWrite key]) := by
  simp [uploadsMiss, hk, hs, hi]

/-! ### Branch lemmas for `get_latest_videos` -/

theorem latest_hit (cid : String) (m : Int) (g env : Option String)
    (c : Cache) (now : Nat) (resp : SearchResponse) (e : Entry)
    (hf : cacheFind c ("latest:" ++ cid ++ ":" ++ toString m) = some e)
    (hts : now - e.ts ≤ CACHE_TTL_SECONDS) (hv : truthyVal e.data = true) :
    get_latest_videos cid m g env c now resp
      = (Except.ok (valueAsVideos e.data), c,
          [Eff.cacheRead ("latest:" ++ cid ++ ":" ++ toString m)]) := by
  simp [get_latest_videos,
    cache_get_fresh c ("latest:" ++ cid ++ ":" ++ toString m) now e hf hts, hv]

theorem latest_miss_eq (cid : String) (m : Int) (g env : Option String)
    (c : Cache) (now : Nat) (resp : SearchResponse)
    (hf : cacheFind c ("latest:" ++ cid ++ ":" ++ toString m) = Option.none) :
    get_latest_videos cid m g env c now resp
      = latestMiss ("latest:" ++ cid ++ ":" ++ toString m) m g env c now resp := by
  simp [get_latest_videos,
    cache_get_of_find_none c ("latest:" ++ cid ++ ":" ++ toString m) now hf]

theorem latest_missFalsy_eq (cid : String) (m : Int) (g env : Option String)
    (c : Cache) (now : Nat) (resp : SearchResponse) (e : Entry)
    (hf : cacheFind c ("latest:" ++ cid ++ ":" ++ toString m) = some e)
    (hts : now - e.ts ≤ CACHE_TTL_SECONDS) (hv : truthyVal e.data = false) :
    get_latest_videos cid m g env c now resp
      = latestMiss ("latest:" ++ cid ++ ":" ++ toString m) m g env c now resp := by
  simp [get_latest_videos,
    cache_get_fresh c ("latest:" ++ cid ++ ":" ++ toString m) now e hf hts, hv]

theorem latestMiss_fallback (key : String) (m : Int) (g env : Option String)
    (c : Cache) (now : Nat) (resp : SearchResponse)
    (hk : (_ensure_api_key g env).1 = false) :
    latestMiss key m g env c now resp
      = (Except.ok (demoLatestVideos m),
          _cache_set c key now (Value.videos (demoLatestVideos m)),
          [Eff.cacheRead key, Eff.cacheWrite key]) := by
  simp [latestMiss, hk]

theorem latestMiss_live_err (key : String) (m : Int) (g env : Option String)
    (c : Cache) (now : Nat) (resp : SearchResponse)
    (hk : (_ensure_api_key g env).1 = true) (hs : resp.status ≠ 200) :
    latestMiss key m g env c now resp
      = (Except.error ⟨502, "YouTube API error: " ++ pyTake resp.text 200⟩, c,
          [Eff.cacheRead key, Eff.httpGet "search"]) := by
  simp [latestMiss, hk, hs]

theorem latestMiss_live_ok (key : String) (m : Int) (g env : Option String)
    (c : Cache) (now : Nat) (resp : SearchResponse)
    (hk : (_ensure_api_key g env).1 = true) (hs : resp.status = 200) :
    latestMiss key m g env c now resp
      = (Except.ok (latestOfItems resp.items),
          _cache_set c key now (Value.videos (latestOfItems resp.items)),
          [Eff.cacheRead key, Eff.httpGet "search", Eff.cacheWrite key]) := by
  simp [latestMiss, hk, hs]

/-! ### Branch lemmas for `get_popular_videos` -/

theorem popular_hit (cid : String) (m : Int) (g env : Option String)
    (c : Cache) (now : Nat) (p1 : PopSearchResponse) (p2 : VideosResponse)
    (e : Entry)
    (hf : cacheFind c ("popular:" ++ cid ++ ":" ++ toString m) = some e)
    (hts : now - e.ts ≤ CACHE_TTL_SECONDS) (hv : truthyVal e.data = true) :
    get_popular_videos cid m g env c now p1 p2
      = (Except.ok (valueAsVideos e.data), c,
          [Eff.cacheRead ("popular:" ++ cid ++ ":" ++ toString m)]) := by
  simp [get_popular_videos,
    cache_get_fresh c ("popular:" ++ cid ++ ":" ++ toString m) now e hf hts, hv]

theorem popular_miss_eq (cid : String) (m : Int) (g env : Option String)
    (c : Cache) (now : Nat) (p1 : PopSearchResponse) (p2 : VideosResponse)
    (hf : cacheFind c ("popular:" ++ cid ++ ":" ++ toString m) = Option.none) :
    get_popular_videos cid m g env c now p1 p2
      = popularMiss ("popular:" ++ cid ++ ":" ++ toString m) m g env c now p1 p2 := by
  simp [get_popular_videos,
    cache_get_of_find_none c ("popular:" ++ cid ++ ":" ++ toString m) now hf]

theorem popular_missFalsy_eq (cid : String) (m : Int) (g env : Option String)
    (c : Cache) (now : Nat) (p1 : PopSearchResponse) (p2 : VideosResponse)
    (e : Entry)
    (hf : cacheFind c ("popular:" ++ cid ++ ":" ++ toString m) = some e)
    (hts : now - e.ts ≤ CACHE_TTL_SECONDS) (hv : truthyVal e.data = false) :
    get_popular_videos cid m g env c now p1 p2
      = popularMiss ("popular:" ++ cid ++ ":" ++ toString m) m g env c now p1 p2 := by
  simp [get_popular_videos,
    cache_get_fresh c ("popular:" ++ cid ++ ":" ++ toString m) now e hf hts, hv]

theorem popularMiss_fallback (key : String) (m : Int) (g env : Option String)
    (c : Cache) (now : Nat) (p1 : PopSearchResponse) (p2 : VideosResponse)
    (hk : (_ensure_api_key g env).1 = false) :
    popularMiss key m g env c now p1 p2
      = (Except.ok (demoPopularVideos m),
          _cache_set c key now (Value.videos (demoPopularVideos m)),
          [Eff.cacheRead key, Eff.cacheWrite key]) := by
  simp [popularMiss, hk]

theorem popularMiss_empty_pool (key : String) (m : Int)
    (g env : Option String) (c : Cache) (now : Nat) (p1 : PopSearchResponse)
    (p2 : VideosResponse) (hk : (_ensure_api_key g env).1 = true)
    (hs : p1.status = 200) (hi : popIds p1.items = []) :
    popularMiss key m g env c now p1 p2
      = (Except.ok [], c, [Eff.cacheRead key, Eff.httpGet "search"]) := by
  simp [popularMiss, hk, hs, hi]

theorem popularMiss_live_ok (key : String) (m : Int) (g env : Option String)
    (c : Cache) (now : Nat) (p1 : PopSearchResponse) (p2 : VideosResponse)
    (hk : (_ensure_api_key g env).1 = true) (hs : p1.status = 200)
    (hi : popIds p1.items ≠ []) (hs2 : p2.status = 200) :
    popularMiss key m g env c now p1 p2
      = (Except.ok (pySliceTo (sortByViewDesc (enrichedOfItems p2.items)) m),
          _cache_set c key now
            (Value.videos (pySliceTo (sortByViewDesc (enrichedOfItems p2.items)) m)),
          [Eff.cacheRead key, Eff.httpGet "search", Eff.httpGet "videos",
            Eff.cacheWrite key]) := by
  have hi2 : (popIds p1.items).isEmpty = false := by
    cases hp : popIds p1.items with
    | nil => exact absurd hp hi
    | cons a l => rfl
  simp [popularMiss, hk, hs, hi2, hs2]

/-! ### The stable descending sort: permutation, sortedness, stability -/

theorem insertDesc_perm (v : Video) (l : List Video) :
    (insertDesc v l).Perm (v :: l) := by
  induction l with
  | nil => exact List.Perm.refl _
  | cons w ws ih =>
    by_cases hlt : viewKey v < viewKey w
    · simp only [insertDesc, if_pos hlt]
      exact (ih.cons w).trans (List.Perm.swap v w ws)
    · simp only [insertDesc, if_neg hlt]
      exact List.Perm.refl _

theorem sortByViewDesc_perm (l : List Video) : (sortByViewDesc l).Perm l := by
  induction l with
  | nil => exact List.Perm.refl _
  | cons v vs ih =>
    exact (insertDesc_perm v (sortByViewDesc vs)).trans (ih.cons v)

theorem insertDesc_pairwise (v : Video) (l : List Video)
    (h : List.Pairwise (fun a b => viewKey b ≤ viewKey a) l) :
    List.Pairwise (fun a b => viewKey b ≤ viewKey a) (insertDesc v l) := by
  induction l with
  | nil => simp [insertDesc]
  | cons w ws ih =>
    rcases List.pairwise_cons.mp h with ⟨hw, hws⟩
    by_cases hlt : viewKey v < viewKey w
    · simp only [insertDesc, if_pos hlt]
      refine List.pairwise_cons.mpr ⟨?_, ih hws⟩
      intro b hb
      have hb2 : b ∈ v :: ws := (insertDesc_perm v ws).mem_iff.mp hb
      rcases List.mem_cons.mp hb2 with hbv | hbws
      · subst hbv
        exact Nat.le_of_lt hlt
      · exact hw b hbws
    · simp only [insertDesc, if_neg hlt]
      refine List.pairwise_cons.mpr ⟨?_, h⟩
      intro b hb
      rcases List.mem_cons.mp hb with hbw | hbws
      · subst hbw
        exact Nat.le_of_not_lt hlt
      · exact Nat.le_trans (hw b hbws) (Nat.le_of_not_lt hlt)

theorem sortByViewDesc_pairwise (l : List Video) :
    List.Pairwise (fun a b => viewKey b ≤ viewKey a) (sortByViewDesc l) := by
  induction l with
  | nil => simp [sortByViewDesc]
  | cons v vs ih => exact insertDesc_pairwise v (sortByViewDesc vs) ih

theorem insertDesc_filter (v : Video) (l : List Video) (n : Nat) :
    (insertDesc v l).filter (fun x => viewKey x == n)
      = (v :: l).filter (fun x => viewKey x == n) := by
  induction l with
  | nil => rfl
  | cons w ws ih =>
    by_cases hlt : viewKey v < viewKey w
    · simp only [insertDesc, if_pos hlt]
      by_cases hv : viewKey v = n
      · have hwn : (viewKey w == n) = false := by
          have : viewKey w ≠ n := by omega
          exact beq_eq_false_iff_ne.mpr this
        simp only [List.filter_cons, hwn, ih, beq_iff_eq, hv]
        simp
      · have hvn : (viewKey v == n) = false := beq_eq_false_iff_ne.mpr hv
        simp only [List.filter_cons, ih, hvn]
        simp
    · simp only [insertDesc, if_neg hlt]

theorem sortByViewDesc_filter (l : List Video) (n : Nat) :
    (sortByViewDesc l).filter (fun x => viewKey x == n)
      = l.filter (fun x => viewKey x == n) := by
  induction l with
  | nil => rfl
  | cons v vs ih =>
    rw [sortByViewDesc, insertDesc_filter, List.filter_cons, List.filter_cons,
      ih]

/-! ### Length lemmas -/

theorem pyRange1_length (m : Int) (hm : 0 ≤ m) :
    (pyRange1 m).length = m.toNat := by
  unfold pyRange1
  by_cases h1 : 1 ≤ m
  · simp [h1]
  · have : m = 0 := by omega
    simp [h1, this]

theorem pySliceTo_of_nonneg {α : Type} (l : List α) (m : Int) (hm : 0 ≤ m) :
    pySliceTo l m = l.take m.toNat := by
  simp [pySliceTo, hm]

theorem demoLatestVideos_length (m : Int) (hm : 0 ≤ m) :
    (demoLatestVideos m).length = m.toNat := by
  simp [demoLatestVideos, pyRange1_length m hm]

theorem demoPopularVideos_length (m : Int) (hm : 0 ≤ m) :
    (demoPopularVideos m).length = m.toNat := by
  simp [demoPopularVideos, pyRange1_length m hm]

theorem latestOfItems_length (items : List SearchItem) :
    (latestOfItems items).length = items.length := by
  simp [latestOfItems]

/-! ### Further helper lemmas -/

theorem cacheFind_set_self (c : Cache) (key : String) (now : Nat)
    (data : Value) :
    cacheFind (_cache_set c key now data) key = some ⟨now, data⟩ := by
  simp [_cache_set, cacheFind]

theorem pyTake_length_le (s : String) (n : Nat) : (pyTake s n).length ≤ n := by
  show (s.toList.take n).length ≤ n
  rw [List.length_take]
  exact Nat.min_le_left _ _

theorem resolveMiss_not_400 (h key : String) (g env : Option String)
    (c : Cache) (now : Nat) (resp : ChannelsIdResponse) :
    resStatus (resolveMiss h key g env c now resp).1 ≠ some 400 := by
  unfold resolveMiss
  cases hk : (_ensure_api_key g env).1
  · simp [resStatus]
  · by_cases hs : resp.status = 200
    · cases hi : resp.items <;> simp [hs, hi, resStatus]
    · simp [hs, resStatus]

theorem resolveMiss_cache_indep (h key : String) (g env : Option String)
    (c c2 : Cache) (now : Nat) (resp : ChannelsIdResponse) :
    (resolveMiss h key g env c now resp).1
        = (resolveMiss h key g env c2 now resp).1
    ∧ (resolveMiss h key g env c now resp).2.2
        = (resolveMiss h key g env c2 now resp).2.2 := by
  unfold resolveMiss
  cases hk : (_ensure_api_key g env).1
  · simp
  · by_cases hs : resp.status = 200
    · cases hi : resp.items <;> simp [hs, hi]
    · simp [hs]

theorem statsMiss_cache_indep (key : String) (g env : Option String)
    (c c2 : Cache) (now : Nat) (resp : StatsResponse) :
    (statsMiss key g env c now resp).1 = (statsMiss key g env c2 now resp).1
    ∧ (statsMiss key g env c now resp).2.2
        = (statsMiss key g env c2 now resp).2.2 := by
  unfold statsMiss
  cases hk : (_ensure_api_key g env).1
  · simp
  · by_cases hs : resp.status = 200
    · cases hi : resp.items <;> simp [hs, hi]
    · simp [hs]

theorem uploadsMiss_cache_indep (cid key : String) (g env : Option String)
    (c c2 : Cache) (now : Nat) (resp : UploadsResponse) :
    (uploadsMiss cid key g env c now resp).1
        = (uploadsMiss cid key g env c2 now resp).1
    ∧ (uploadsMiss cid key g env c now resp).2.2
        = (uploadsMiss cid key g env c2 now resp).2.2 := by
  unfold uploadsMiss
  cases hk : (_ensure_api_key g env).1
  · simp
  · by_cases hs : resp.status = 200
    · cases hi : resp.items <;> simp [hs, hi]
    · simp [hs]

theorem latestMiss_cache_indep (key : String) (m : Int)
    (g env : Option String) (c c2 : Cache) (now : Nat)
    (resp : SearchResponse) :
    (latestMiss key m g env c now resp).1
        = (latestMiss key m g env c2 now resp).1
    ∧ (latestMiss key m g env c now resp).2.2
        = (latestMiss key m g env c2 now resp).2.2 := by
  unfold latestMiss
  cases hk : (_ensure_api_key g env).1
  · simp
  · by_cases hs : resp.status = 200 <;> simp [hs]

theorem popularMiss_cache_indep (key : String) (m : Int)
    (g env : Option String) (c c2 : Cache) (now : Nat)
    (p1 : PopSearchResponse) (p2 : VideosResponse) :
    (popularMiss key m g env c now p1 p2).1
        = (popularMiss key m g env c2 now p1 p2).1
    ∧ (popularMiss key m g env c now p1 p2).2.2
        = (popularMiss key m g env c2 now p1 p2).2.2 := by
  unfold popularMiss
  cases hk : (_ensure_api_key g env).1
  · simp
  · by_cases hs1 : p1.status = 200
    · by_cases hi : (popIds p1.items).isEmpty
      · simp [hs1, hi]
      · by_cases hs2 : p2.status = 200 <;> simp [hs1, hi, hs2]
    · simp [hs1]

/-! ### Claim theorems -/

/-- Claim C2, counterexample: once the module-level global holds a credential
(as it does after startup capture or a successful earlier re-read), the gate
answers true even though the backing environment currently supplies no
credential, so removing the credential from the environment is NOT reflected
by the next call, contradicting the claim's "iff ... at that moment". -/
theorem C2_counterexample :
    (_ensure_api_key (some "key") Option.none).1 = true
    ∧ truthyStr Option.none = false := by
  exact ⟨by decide, rfl⟩

/-- Claim C2, amended: the gate answers true iff the cached global OR the
current environment holds a non-empty credential; supplying a credential
after start is therefore picked up on the next call, but once the gate has
answered true it keeps answering true for every later environment state —
removal is never reflected. -/
theorem C2_amended (g env env2 : Option String) :
    (_ensure_api_key g env).1 = (truthyStr g || truthyStr env)
    ∧ ((_ensure_api_key g env).1 = true →
        (_ensure_api_key (_ensure_api_key g env).2 env2).1 = true) :=
  ⟨ensure_api_key_bool g env, fun h => ensure_api_key_idem g env env2 h⟩

/-- Witness for C2_amended: a credential supplied only via the environment is
accepted, and stays accepted after it is removed from the environment. -/
theorem C2_amended_witness :
    (_ensure_api_key (_ensure_api_key Option.none (some "key")).2
        Option.none).1 = true :=
  (C2_amended Option.none (some "key") Option.none).2 (by decide)

/-- Claim C5, counterexample: for the special-cased demo handle
`"@UNBEQUEM-o2w"` the code returns the hard-coded `"UC_demo_unbequem"`,
which differs from the claim's strip-lowercase-prefix derivation
(`specFallbackId`, which yields `"UC_demo_unbequem-o2w"`). -/
theorem C5_counterexample :
    (resolve_channel_id (some "@UNBEQUEM-o2w") Option.none Option.none
        Option.none [] 0 ⟨200, "", []⟩).1 = Except.ok "UC_demo_unbequem"
    ∧ specFallbackId "@UNBEQUEM-o2w" = "UC_demo_unbequem-o2w"
    ∧ "UC_demo_unbequem" ≠ "UC_demo_unbequem-o2w" := by
  refine ⟨rfl, by decide, by decide⟩

/-- Claim C5, amended: in fallback mode a cache-missing resolution returns a
deterministic identifier without any upstream request: the hard-coded id for
the two special demo handles, and otherwise the fixed prefix plus the handle
with ALL leading and trailing `@` stripped and lowercased; the id is cached,
and a repeated call within the TTL window returns the same id. -/
theorem C5_amended (h : String) (g env : Option String) (c : Cache)
    (now now2 : Nat) (resp resp2 : ChannelsIdResponse) (hh : h ≠ "")
    (hk : (_ensure_api_key g env).1 = false)
    (hf : cacheFind c ("resolve:" ++ h) = Option.none)
    (httl : now2 - now ≤ CACHE_TTL_SECONDS) :
    resolve_channel_id (some h) Option.none g env c now resp
      = (Except.ok (fallbackChannelId h),
          _cache_set c ("resolve:" ++ h) now
            (Value.str (fallbackChannelId h)),
          [Eff.cacheRead ("resolve:" ++ h), Eff.cacheWrite ("resolve:" ++ h)])
    ∧ fallbackChannelId h
        = (if h = "@UNBEQUEM-o2w" then "UC_demo_unbequem"
          else if h = "@BEQUEM-g" then "UC_demo_bequem"
          else "UC_demo_" ++ pyLower (pyStrip '@' h))
    ∧ (resolve_channel_id (some h) Option.none g env
          (_cache_set c ("resolve:" ++ h) now
            (Value.str (fallbackChannelId h))) now2 resp2).1
        = Except.ok (fallbackChannelId h) := by
  refine ⟨?_, ?_, ?_⟩
  · rw [resolve_miss_eq h Option.none g env c now resp rfl hh hf,
      resolveMiss_fallback h ("resolve:" ++ h) g env c now resp hk]
  · unfold fallbackChannelId fallback_map
    by_cases h1 : h = "@UNBEQUEM-o2w"
    · simp [h1]
    · by_cases h2 : h = "@BEQUEM-g"
      · simp [h1, h2]
      · simp [h1, h2]
  · rw [resolve_hit h Option.none g env _ now2 resp2
      ⟨now, Value.str (fallbackChannelId h)⟩ rfl hh
      (cacheFind_set_self c ("resolve:" ++ h) now _) httl
      (truthyVal_str_of_ne _ (fallbackChannelId_ne_empty h))]
    rfl

/-- Witness for C5_amended at the handle `"@Example"`. -/
theorem C5_amended_witness :
    resolve_channel_id (some "@Example") Option.none Option.none Option.none
        [] 0 ⟨200, "", []⟩
      = (Except.ok "UC_demo_example",
          [("resolve:@Example", ⟨0, Value.str "UC_demo_example"⟩)],
          [Eff.cacheRead "resolve:@Example", Eff.cacheWrite "resolve:@Example"])
    ∧ (resolve_channel_id (some "@Example") Option.none Option.none
          Option.none
          [("resolve:@Example", ⟨0, Value.str "UC_demo_example"⟩)] 100
          ⟨200, "", []⟩).1
        = Except.ok "UC_demo_example" := by
  have h := C5_amended "@Example" Option.none Option.none [] 0 100
    ⟨200, "", []⟩ ⟨200, "", []⟩ (by decide) (by decide) rfl (by decide)
  exact ⟨h.1, h.2.2⟩

/-- Claim C6: a lookup whose entry's age strictly exceeds the 1200-second TTL
yields absent and evicts the entry; a lookup within the TTL returns the
stored value and leaves the store unchanged. -/
theorem C6_cache_ttl_freshness (c : Cache) (key : String) (now : Nat)
    (e : Entry) (hf : cacheFind c key = some e) :
    (CACHE_TTL_SECONDS < now - e.ts →
      _cache_get c key now = (Option.none, cacheErase c key))
    ∧ (now - e.ts ≤ CACHE_TTL_SECONDS →
      _cache_get c key now = (some e.data, c)) :=
  ⟨fun h2 => cache_get_stale c key now e hf h2,
    fun h2 => cache_get_fresh c key now e hf h2⟩

/-- Witness for C6 at age 1300 (stale, evicted) and age 1200 (served). -/
theorem C6_cache_ttl_freshness_witness :
    _cache_get [("k", ⟨0, Value.str "v"⟩)] "k" 1300 = (Option.none, [])
    ∧ _cache_get [("k", ⟨0, Value.str "v"⟩)] "k" 1200
        = (some (Value.str "v"), [("k", ⟨0, Value.str "v"⟩)]) :=
  ⟨(C6_cache_ttl_freshness [("k", ⟨0, Value.str "v"⟩)] "k" 1300
      ⟨0, Value.str "v"⟩ rfl).1 (by decide),
    (C6_cache_ttl_freshness [("k", ⟨0, Value.str "v"⟩)] "k" 1200
      ⟨0, Value.str "v"⟩ rfl).2 (by decide)⟩

/-- Claim C9: a non-empty explicit channel id is returned unchanged, with no
cache lookup, no cache write and no upstream request (empty effect trace),
and the cache state is exactly the input state. -/
theorem C9_explicit_channel_id (handle : Option String) (s : String)
    (g env : Option String) (c : Cache) (now : Nat)
    (resp : ChannelsIdResponse) (hs : s ≠ "") :
    resolve_channel_id handle (some s) g env c now resp
      = (Except.ok s, c, []) :=
  resolve_explicit handle s g env c now resp hs

/-- Witness for C9: an explicit id alongside a handle, on a non-empty cache. -/
theorem C9_explicit_channel_id_witness :
    resolve_channel_id (some "@h") (some "UCX") Option.none Option.none
        [("resolve:@h", ⟨0, Value.str "other"⟩)] 50 ⟨200, "", []⟩
      = (Except.ok "UCX", [("resolve:@h", ⟨0, Value.str "other"⟩)], []) :=
  C9_explicit_channel_id (some "@h") "UCX" Option.none Option.none
    [("resolve:@h", ⟨0, Value.str "other"⟩)] 50 ⟨200, "", []⟩ (by decide)

/-- Claim C1, counterexample: a request to `/api/youtube/videos/latest` with
`maxResults = 0` — outside [1, 12] — is NOT rejected: the handler resolves
the handle and runs the aggregation (the trace shows the latest-videos cache
being consulted for the out-of-range count) and answers 200 OK. -/
theorem C1_counterexample :
    (youtube_latest (some "@x") Option.none (some 0) Option.none Option.none
        [] 0 ⟨200, "", []⟩ ⟨200, "", []⟩).1
      = Except.ok ("UC_demo_x", [])
    ∧ Eff.cacheRead "latest:UC_demo_x:0"
        ∈ (youtube_latest (some "@x") Option.none (some 0) Option.none
            Option.none [] 0 ⟨200, "", []⟩ ⟨200, "", []⟩).2.2 := by
  exact ⟨rfl, by decide⟩

/-- Claim C1, amended: only the overview endpoint validates `maxResults` at
the boundary (rejecting values outside [1, 12] with a client error before any
aggregation runs, defaulting to 6 when absent); the `videos/latest` and
`videos/popular` endpoints also default to 6 but accept ANY integer and pass
it straight into the aggregation logic. -/
theorem C1_amended (v : Int) (cid : String) (handle channelId g env :
    Option String) (c : Cache) (now : Nat) (rresp : ChannelsIdResponse)
    (stresp : StatsResponse) (sresp : SearchResponse) (p1 : PopSearchResponse)
    (p2 : VideosResponse) (hv : ¬(1 ≤ v ∧ v ≤ 12)) (hcid : cid ≠ "") :
    youtube_overview handle channelId (some v) g env c now rresp stresp sresp
        p1 p2
      = (Except.error ⟨422, "Input should be between 1 and 12"⟩, c, [])
    ∧ overview_parse_maxResults Option.none = Except.ok 6
    ∧ youtube_latest handle channelId Option.none g env c now rresp sresp
        = youtube_latest handle channelId (some 6) g env c now rresp sresp
    ∧ youtube_popular handle channelId Option.none g env c now rresp p1 p2
        = youtube_popular handle channelId (some 6) g env c now rresp p1 p2
    ∧ (youtube_latest Option.none (some cid) (some v) Option.none Option.none
          [] now rresp sresp).1
        = Except.ok (cid, demoLatestVideos v)
    ∧ (youtube_popular Option.none (some cid) (some v) Option.none Option.none
          [] now rresp p1 p2).1
        = Except.ok (cid, demoPopularVideos v) := by
  refine ⟨?_, rfl, rfl, rfl, ?_, ?_⟩
  · unfold youtube_overview overview_parse_maxResults
    simp [hv]
  · have hres := resolve_explicit Option.none cid Option.none Option.none []
      now rresp hcid
    have hlat := (latest_miss_eq cid v Option.none Option.none [] now sresp
      rfl).trans (latestMiss_fallback _ v Option.none Option.none [] now sresp
        rfl)
    simp [youtube_latest, hres, hlat]
  · have hres := resolve_explicit Option.none cid Option.none Option.none []
      now rresp hcid
    have hpop := (popular_miss_eq cid v Option.none Option.none [] now p1 p2
      rfl).trans (popularMiss_fallback _ v Option.none Option.none [] now p1
        p2 rfl)
    simp [youtube_popular, hres, hpop]

/-- Witness for C1_amended at `maxResults = 0`. -/
theorem C1_amended_witness :
    youtube_overview (some "@x") Option.none (some 0) Option.none Option.none
        [] 7 ⟨200, "", []⟩ ⟨200, "", []⟩ ⟨200, "", []⟩ ⟨200, "", []⟩
        ⟨200, "", []⟩
      = (Except.error ⟨422, "Input should be between 1 and 12"⟩, [], [])
    ∧ (youtube_latest Option.none (some "UCX") (some 0) Option.none
          Option.none [] 7 ⟨200, "", []⟩ ⟨200, "", []⟩).1
        = Except.ok ("UCX", []) := by
  have h := C1_amended 0 "UCX" (some "@x") Option.none Option.none Option.none
    [] 7 ⟨200, "", []⟩ ⟨200, "", []⟩ ⟨200, "", []⟩ ⟨200, "", []⟩ ⟨200, "", []⟩
    (by decide) (by decide)
  exact ⟨h.1, h.2.2.2.2.1⟩

/-- Claim C3, counterexample: the live path of `get_uploads_playlist_id`,
when the upstream answers 200 with zero items, returns `None` WITHOUT
creating any cache entry (the cache is unchanged and the trace has no
write), contradicting "stores its returned result ... before returning". -/
theorem C3_counterexample :
    (get_uploads_playlist_id "X" (some "k") Option.none [] 0
        ⟨200, "", []⟩).1 = Except.ok Option.none
    ∧ (get_uploads_playlist_id "X" (some "k") Option.none [] 0
        ⟨200, "", []⟩).2.1 = ([] : Cache)
    ∧ Eff.cacheWrite "uploads:X"
        ∉ (get_uploads_playlist_id "X" (some "k") Option.none [] 0
            ⟨200, "", []⟩).2.2 := by
  exact ⟨rfl, rfl, by decide⟩

/-- Claim C3, amended: on a cache-miss execution every operation stores its
result under its key (with the current timestamp) before returning, in both
the fallback and the live branch — EXCEPT the live branch of
`get_uploads_playlist_id` when the upstream returns zero items (returns
`None` uncached) and the live branch of `get_popular_videos` when the
candidate pool is empty (returns `[]` uncached), which leave the cache
exactly as it was. -/
theorem C3_amended (h cid : String) (m : Int) (g env : Option String)
    (c : Cache) (now : Nat) (resp : ChannelsIdResponse)
    (stresp : StatsResponse) (uresp : UploadsResponse)
    (sresp : SearchResponse) (p1 : PopSearchResponse) (p2 : VideosResponse) :
    (h ≠ "" → cacheFind c ("resolve:" ++ h) = Option.none →
      (_ensure_api_key g env).1 = false →
      (resolve_channel_id (some h) Option.none g env c now resp).2.1
        = _cache_set c ("resolve:" ++ h) now
            (Value.str (fallbackChannelId h)))
    ∧ (∀ cid0 rest, h ≠ "" → cacheFind c ("resolve:" ++ h) = Option.none →
      (_ensure_api_key g env).1 = true → resp.status = 200 →
      resp.items = cid0 :: rest →
      (resolve_channel_id (some h) Option.none g env c now resp).2.1
        = _cache_set c ("resolve:" ++ h) now (Value.str cid0))
    ∧ (cacheFind c ("stats:" ++ cid) = Option.none →
      (_ensure_api_key g env).1 = false →
      (get_channel_statistics cid g env c now stresp).2.1
        = _cache_set c ("stats:" ++ cid) now (Value.stats demoStats))
    ∧ (∀ it rest, cacheFind c ("stats:" ++ cid) = Option.none →
      (_ensure_api_key g env).1 = true → stresp.status = 200 →
      stresp.items = it :: rest →
      (get_channel_statistics cid g env c now stresp).2.1
        = _cache_set c ("stats:" ++ cid) now (Value.stats (statsOfItem it)))
    ∧ (cacheFind c ("uploads:" ++ cid) = Option.none →
      (_ensure_api_key g env).1 = false →
      (get_uploads_playlist_id cid g env c now uresp).2.1
        = _cache_set c ("uploads:" ++ cid) now
            (Value.str ("PL_demo_" ++ cid)))
    ∧ (∀ it rest, cacheFind c ("uploads:" ++ cid) = Option.none →
      (_ensure_api_key g env).1 = true → uresp.status = 200 →
      uresp.items = it :: rest →
      (get_uploads_playlist_id cid g env c now uresp).2.1
        = _cache_set c ("uploads:" ++ cid) now
            (match it.uploads with
              | some s => Value.str s
              | Option.none => Value.none))
    ∧ (cacheFind c ("latest:" ++ cid ++ ":" ++ toString m) = Option.none →
      (_ensure_api_key g env).1 = false →
      (get_latest_videos cid m g env c now sresp).2.1
        = _cache_set c ("latest:" ++ cid ++ ":" ++ toString m) now
            (Value.videos (demoLatestVideos m)))
    ∧ (cacheFind c ("latest:" ++ cid ++ ":" ++ toString m) = Option.none →
      (_ensure_api_key g env).1 = true → sresp.status = 200 →
      (get_latest_videos cid m g env c now sresp).2.1
        = _cache_set c ("latest:" ++ cid ++ ":" ++ toString m) now
            (Value.videos (latestOfItems sresp.items)))
    ∧ (cacheFind c ("popular:" ++ cid ++ ":" ++ toString m) = Option.none →
      (_ensure_api_key g env).1 = false →
      (get_popular_videos cid m g env c now p1 p2).2.1
        = _cache_set c ("popular:" ++ cid ++ ":" ++ toString m) now
            (Value.videos (demoPopularVideos m)))
    ∧ (cacheFind c ("popular:" ++ cid ++ ":" ++ toString m) = Option.none →
      (_ensure_api_key g env).1 = true → p1.status = 200 →
      popIds p1.items ≠ [] → p2.status = 200 →
      (get_popular_videos cid m g env c now p1 p2).2.1
        = _cache_set c ("popular:" ++ cid ++ ":" ++ toString m) now
            (Value.videos
              (pySliceTo (sortByViewDesc (enrichedOfItems p2.items)) m)))
    ∧ (cacheFind c ("uploads:" ++ cid) = Option.none →
      (_ensure_api_key g env).1 = true → uresp.status = 200 →
      uresp.items = [] →
      (get_uploads_playlist_id cid g env c now uresp).1
          = Except.ok Option.none
        ∧ (get_uploads_playlist_id cid g env c now uresp).2.1 = c)
    ∧ (cacheFind c ("popular:" ++ cid ++ ":" ++ toString m) = Option.none →
      (_ensure_api_key g env).1 = true → p1.status = 200 →
      popIds p1.items = [] →
      (get_popular_videos cid m g env c now p1 p2).1 = Except.ok []
        ∧ (get_popular_videos cid m g env c now p1 p2).2.1 = c) := by
  refine ⟨?_, ?_, ?_, ?_, ?_, ?_, ?_, ?_, ?_, ?_, ?_, ?_⟩
  · intro hh hf hk
    rw [resolve_miss_eq h Option.none g env c now resp rfl hh hf,
      resolveMiss_fallback h _ g env c now resp hk]
  · intro cid0 rest hh hf hk hs hi
    rw [resolve_miss_eq h Option.none g env c now resp rfl hh hf,
      resolveMiss_live_ok h _ g env c now resp cid0 rest hk hs hi]
  · intro hf hk
    rw [stats_miss_eq cid g env c now stresp hf,
      statsMiss_fallback _ g env c now stresp hk]
  · intro it rest hf hk hs hi
    rw [stats_miss_eq cid g env c now stresp hf,
      statsMiss_live_ok _ g env c now stresp it rest hk hs hi]
  · intro hf hk
    rw [uploads_miss_eq cid g env c now uresp hf,
      uploadsMiss_fallback cid _ g env c now uresp hk]
  · intro it rest hf hk hs hi
    rw [uploads_miss_eq cid g env c now uresp hf,
      uploadsMiss_live_ok cid _ g env c now uresp it rest hk hs hi]
  · intro hf hk
    rw [latest_miss_eq cid m g env c now sresp hf,
      latestMiss_fallback _ m g env c now sresp hk]
  · intro hf hk hs
    rw [latest_miss_eq cid m g env c now sresp hf,
      latestMiss_live_ok _ m g env c now sresp hk hs]
  · intro hf hk
    rw [popular_miss_eq cid m g env c now p1 p2 hf,
      popularMiss_fallback _ m g env c now p1 p2 hk]
  · intro hf hk hs1 hi hs2
    rw [popular_miss_eq cid m g env c now p1 p2 hf,
      popularMiss_live_ok _ m g env c now p1 p2 hk hs1 hi hs2]
  · intro hf hk hs hi
    rw [uploads_miss_eq cid g env c now uresp hf,
      uploadsMiss_live_noitems cid _ g env c now uresp hk hs hi]
    exact ⟨rfl, rfl⟩
  · intro hf hk hs1 hi
    rw [popular_miss_eq cid m g env c now p1 p2 hf,
      popularMiss_empty_pool _ m g env c now p1 p2 hk hs1 hi]
    exact ⟨rfl, rfl⟩

/-- Witness for C3_amended: the fallback branch of `resolve_channel_id`
caches the synthesized id, and the live branch of `get_popular_videos` with
an empty pool leaves a non-empty cache untouched. -/
theorem C3_amended_witness :
    (resolve_channel_id (some "@h") Option.none Option.none Option.none
        [("other", ⟨0, Value.str "x"⟩)] 5 ⟨200, "", []⟩).2.1
      = _cache_set [("other", ⟨0, Value.str "x"⟩)] "resolve:@h" 5
          (Value.str (fallbackChannelId "@h"))
    ∧ (get_popular_videos "X" 6 (some "k") Option.none
        [("other", ⟨0, Value.str "x"⟩)] 5 ⟨200, "", [⟨some ""⟩]⟩
        ⟨200, "", []⟩).2.1 = [("other", ⟨0, Value.str "x"⟩)] := by
  have h := C3_amended "@h" "X" 6 Option.none Option.none
    [("other", ⟨0, Value.str "x"⟩)] 5 ⟨200, "", []⟩ ⟨200, "", []⟩
    ⟨200, "", []⟩ ⟨200, "", []⟩ ⟨200, "", [⟨some ""⟩]⟩ ⟨200, "", []⟩
  have h2 := C3_amended "@h" "X" 6 (some "k") Option.none
    [("other", ⟨0, Value.str "x"⟩)] 5 ⟨200, "", []⟩ ⟨200, "", []⟩
    ⟨200, "", []⟩ ⟨200, "", []⟩ ⟨200, "", [⟨some ""⟩]⟩ ⟨200, "", []⟩
  refine ⟨h.1 (by decide) (by decide) (by decide), ?_⟩
  exact (h2.2.2.2.2.2.2.2.2.2.2.2 (by decide) (by decide) rfl (by decide)).2

/-- Claim C4, counterexample: the live path of `get_latest_videos` never
truncates — with `maxResults = 1` and an upstream response carrying two
items, the operation returns two entries. -/
theorem C4_counterexample :
    (get_latest_videos "X" 1 (some "k") Option.none [] 0
        ⟨200, "", [⟨"a", "ta", Option.none, Option.none, "pa"⟩,
          ⟨"b", "tb", Option.none, Option.none, "pb"⟩]⟩).1
      = Except.ok
          [⟨some "a", some "ta", Option.none, some "pa", Option.none⟩,
            ⟨some "b", some "tb", Option.none, some "pb", Option.none⟩]
    ∧ lengthOfOk (get_latest_videos "X" 1 (some "k") Option.none [] 0
        ⟨200, "", [⟨"a", "ta", Option.none, Option.none, "pa"⟩,
          ⟨"b", "tb", Option.none, Option.none, "pb"⟩]⟩).1 = 2
    ∧ ¬(2 : Nat) ≤ 1 := by
  exact ⟨rfl, rfl, by decide⟩

/-- Claim C4, amended: on a cache-miss execution with successful upstream
responses and a non-negative `maxResults`, `get_popular_videos` returns at
most `maxResults` entries in every branch, while `get_latest_videos` returns
exactly `maxResults` entries in fallback mode but, in live mode, exactly one
entry per item of the upstream response, with no truncation to
`maxResults`. -/
theorem C4_amended (cid : String) (m : Int) (g env : Option String)
    (c : Cache) (now : Nat) (sresp : SearchResponse) (p1 : PopSearchResponse)
    (p2 : VideosResponse) (hm : 0 ≤ m)
    (hfl : cacheFind c ("latest:" ++ cid ++ ":" ++ toString m) = Option.none)
    (hfp : cacheFind c ("popular:" ++ cid ++ ":" ++ toString m) = Option.none)
    (hs : sresp.status = 200) (hp1 : p1.status = 200) (hp2 : p2.status = 200) :
    lengthOfOk (get_popular_videos cid m g env c now p1 p2).1 ≤ m.toNat
    ∧ lengthOfOk (get_latest_videos cid m g env c now sresp).1
        = (if (_ensure_api_key g env).1 then sresp.items.length
          else m.toNat) := by
  constructor
  · rw [popular_miss_eq cid m g env c now p1 p2 hfp]
    cases hk : (_ensure_api_key g env).1 with
    | false =>
      rw [popularMiss_fallback _ m g env c now p1 p2 hk]
      simp [lengthOfOk, demoPopularVideos_length m hm]
    | true =>
      by_cases hi : popIds p1.items = []
      · rw [popularMiss_empty_pool _ m g env c now p1 p2 hk hp1 hi]
        simp [lengthOfOk]
      · rw [popularMiss_live_ok _ m g env c now p1 p2 hk hp1 hi hp2]
        simp only [lengthOfOk, pySliceTo_of_nonneg _ m hm, List.length_take]
        exact Nat.min_le_left _ _
  · rw [latest_miss_eq cid m g env c now sresp hfl]
    cases hk : (_ensure_api_key g env).1 with
    | false =>
      rw [latestMiss_fallback _ m g env c now sresp hk]
      simp [lengthOfOk, demoLatestVideos_length m hm]
    | true =>
      rw [latestMiss_live_ok _ m g env c now sresp hk hs]
      simp [lengthOfOk, latestOfItems_length]

/-- Witness for C4_amended in live mode with a three-item statistics
response and `maxResults = 2`. -/
theorem C4_amended_witness :
    lengthOfOk (get_popular_videos "X" 2 (some "k") Option.none [] 0
        ⟨200, "", [⟨some "a"⟩]⟩
        ⟨200, "",
          [⟨some "a", some "ta", Option.none, Option.none, some 5,
            Option.none⟩,
          ⟨some "b", some "tb", Option.none, Option.none, some 7,
            Option.none⟩,
          ⟨some "d", some "td", Option.none, Option.none, some 5,
            Option.none⟩]⟩).1 ≤ 2
    ∧ lengthOfOk (get_latest_videos "X" 2 (some "k") Option.none [] 0
        ⟨200, "", [⟨"a", "ta", Option.none, Option.none, "pa"⟩,
          ⟨"b", "tb", Option.none, Option.none, "pb"⟩,
          ⟨"d", "td", Option.none, Option.none, "pd"⟩]⟩).1
      = (if (_ensure_api_key (some "k") Option.none).1 then 3
        else (2 : Int).toNat) := by
  have h := C4_amended "X" 2 (some "k") Option.none [] 0
    ⟨200, "", [⟨"a", "ta", Option.none, Option.none, "pa"⟩,
      ⟨"b", "tb", Option.none, Option.none, "pb"⟩,
      ⟨"d", "td", Option.none, Option.none, "pd"⟩]⟩
    ⟨200, "", [⟨some "a"⟩]⟩
    ⟨200, "",
      [⟨some "a", some "ta", Option.none, Option.none, some 5, Option.none⟩,
      ⟨some "b", some "tb", Option.none, Option.none, some 7, Option.none⟩,
      ⟨some "d", some "td", Option.none, Option.none, some 5, Option.none⟩]⟩
    (by decide) rfl rfl rfl rfl rfl
  exact ⟨h.1, h.2⟩

theorem resolve_missStale_eq (h : String) (channel_id g env : Option String)
    (c : Cache) (now : Nat) (resp : ChannelsIdResponse) (e : Entry)
    (hch : truthyStr channel_id = false) (hh : h ≠ "")
    (hf : cacheFind c ("resolve:" ++ h) = some e)
    (hts : CACHE_TTL_SECONDS < now - e.ts) :
    resolve_channel_id (some h) channel_id g env c now resp
      = resolveMiss h ("resolve:" ++ h) g env
          (cacheErase c ("resolve:" ++ h)) now resp := by
  have hsh : truthyStr (some h) = true := by simp [truthyStr, hh]
  simp [resolve_channel_id, hch, hsh,
    cache_get_stale c ("resolve:" ++ h) now e hf hts]

/-- Claim C7: the live path of `get_popular_videos` returns the enriched pool
sorted by view count descending — a permutation of the pool that is pairwise
descending and, restricted to any fixed view count, preserves the pool's
relative order — truncated to the first `maxResults` entries. -/
theorem C7_popular_sorted (cid : String) (m : Int) (g env : Option String)
    (c : Cache) (now : Nat) (p1 : PopSearchResponse) (p2 : VideosResponse)
    (n : Nat) (hm : 0 ≤ m)
    (hf : cacheFind c ("popular:" ++ cid ++ ":" ++ toString m) = Option.none)
    (hk : (_ensure_api_key g env).1 = true) (hs1 : p1.status = 200)
    (hids : popIds p1.items ≠ []) (hs2 : p2.status = 200) :
    (get_popular_videos cid m g env c now p1 p2).1
      = Except.ok ((sortByViewDesc (enrichedOfItems p2.items)).take m.toNat)
    ∧ (sortByViewDesc (enrichedOfItems p2.items)).Perm
        (enrichedOfItems p2.items)
    ∧ List.Pairwise (fun a b => viewKey b ≤ viewKey a)
        (sortByViewDesc (enrichedOfItems p2.items))
    ∧ (sortByViewDesc (enrichedOfItems p2.items)).filter
          (fun x => viewKey x == n)
        = (enrichedOfItems p2.items).filter (fun x => viewKey x == n) := by
  refine ⟨?_, sortByViewDesc_perm _, sortByViewDesc_pairwise _,
    sortByViewDesc_filter _ n⟩
  rw [popular_miss_eq cid m g env c now p1 p2 hf,
    popularMiss_live_ok _ m g env c now p1 p2 hk hs1 hids hs2]
  simp [pySliceTo_of_nonneg _ m hm]

/-- Witness for C7 on a three-video pool with a tie at view count 5. -/
theorem C7_popular_sorted_witness :
    (get_popular_videos "X" 2 (some "k") Option.none [] 0
        ⟨200, "", [⟨some "a"⟩]⟩
        ⟨200, "",
          [⟨some "a", some "ta", Option.none, Option.none, some 5,
            Option.none⟩,
          ⟨some "b", some "tb", Option.none, Option.none, some 7,
            Option.none⟩,
          ⟨some "d", some "td", Option.none, Option.none, some 5,
            Option.none⟩]⟩).1
      = Except.ok ((sortByViewDesc (enrichedOfItems
          [⟨some "a", some "ta", Option.none, Option.none, some 5,
            Option.none⟩,
          ⟨some "b", some "tb", Option.none, Option.none, some 7,
            Option.none⟩,
          ⟨some "d", some "td", Option.none, Option.none, some 5,
            Option.none⟩])).take 2) :=
  (C7_popular_sorted "X" 2 (some "k") Option.none [] 0 ⟨200, "", [⟨some "a"⟩]⟩
    ⟨200, "",
      [⟨some "a", some "ta", Option.none, Option.none, some 5, Option.none⟩,
      ⟨some "b", some "tb", Option.none, Option.none, some 7, Option.none⟩,
      ⟨some "d", some "td", Option.none, Option.none, some 5, Option.none⟩]⟩
    5 (by decide) rfl (by decide) rfl (by decide) rfl).1

/-- Claim C8: `resolve_channel_id` raises 400 exactly when neither a truthy
handle nor a truthy channel id is supplied; on the live path with a 200
upstream status, `resolve_channel_id` and `get_channel_statistics` raise 404
exactly when the upstream returns zero items; and a non-200 upstream status
raises 502 whose detail carries at most 200 characters of the response
body. -/
theorem C8_error_model (handle channel_id g env : Option String) (c : Cache)
    (now : Nat) (resp : ChannelsIdResponse) (h cid : String)
    (sresp : StatsResponse) :
    (resStatus (resolve_channel_id handle channel_id g env c now resp).1
        = some 400
      ↔ truthyStr channel_id = false ∧ truthyStr handle = false)
    ∧ (h ≠ "" → cacheFind c ("resolve:" ++ h) = Option.none →
      (_ensure_api_key g env).1 = true → resp.status = 200 →
      (resStatus (resolve_channel_id (some h) Option.none g env c now
          resp).1 = some 404
        ↔ resp.items = []))
    ∧ (cacheFind c ("stats:" ++ cid) = Option.none →
      (_ensure_api_key g env).1 = true → sresp.status = 200 →
      (resStatus (get_channel_statistics cid g env c now sresp).1 = some 404
        ↔ sresp.items = []))
    ∧ (h ≠ "" → cacheFind c ("resolve:" ++ h) = Option.none →
      (_ensure_api_key g env).1 = true → resp.status ≠ 200 →
      (resolve_channel_id (some h) Option.none g env c now resp).1
          = Except.error
              ⟨502, "YouTube API error: " ++ pyTake resp.text 200⟩
        ∧ (pyTake resp.text 200).length ≤ 200)
    ∧ (cacheFind c ("stats:" ++ cid) = Option.none →
      (_ensure_api_key g env).1 = true → sresp.status ≠ 200 →
      (get_channel_statistics cid g env c now sresp).1
          = Except.error
              ⟨502, "YouTube API error: " ++ pyTake sresp.text 200⟩
        ∧ (pyTake sresp.text 200).length ≤ 200) := by
  refine ⟨?_, ?_, ?_, ?_, ?_⟩
  · by_cases hc : truthyStr channel_id = true
    · have hr : resolve_channel_id handle channel_id g env c now resp
          = (Except.ok (channel_id.getD ""), c, []) := by
        simp [resolve_channel_id, hc]
      rw [hr]
      simp [resStatus, hc]
    · have hc2 : truthyStr channel_id = false := by
        revert hc
        cases truthyStr channel_id <;> simp
      by_cases hh : truthyStr handle = true
      · refine iff_of_false ?_ (by simp [hh])
        cases handle with
        | none => simp [truthyStr] at hh
        | some h0 =>
          have hh0 : h0 ≠ "" := by simpa [truthyStr] using hh
          rcases hfind : cacheFind c ("resolve:" ++ h0) with _ | e
          · rw [resolve_miss_eq h0 channel_id g env c now resp hc2 hh0 hfind]
            exact resolveMiss_not_400 h0 _ g env c now resp
          · by_cases hts : now - e.ts ≤ CACHE_TTL_SECONDS
            · by_cases hv : truthyVal e.data = true
              · rw [resolve_hit h0 channel_id g env c now resp e hc2 hh0
                  hfind hts hv]
                simp [resStatus]
              · have hv2 : truthyVal e.data = false := by
                  revert hv
                  cases truthyVal e.data <;> simp
                rw [resolve_missFalsy_eq h0 channel_id g env c now resp e hc2
                  hh0 hfind hts hv2]
                exact resolveMiss_not_400 h0 _ g env c now resp
            · have hts2 : CACHE_TTL_SECONDS < now - e.ts :=
                Nat.lt_of_not_le fun hx => hts hx
              rw [resolve_missStale_eq h0 channel_id g env c now resp e hc2
                hh0 hfind hts2]
              exact resolveMiss_not_400 h0 _ g env _ now resp
      · have hh2 : truthyStr handle = false := by
          revert hh
          cases truthyStr handle <;> simp
        rw [resolve_noargs handle channel_id g env c now resp hc2 hh2]
        simp [resStatus, hc2, hh2]
  · intro hh hf hk hs
    rw [resolve_miss_eq h Option.none g env c now resp rfl hh hf]
    cases hi : resp.items with
    | nil =>
      rw [resolveMiss_live_notfound h _ g env c now resp hk hs hi]
      simp [resStatus]
    | cons a l =>
      rw [resolveMiss_live_ok h _ g env c now resp a l hk hs hi]
      simp [resStatus]
  · intro hf hk hs
    rw [stats_miss_eq cid g env c now sresp hf]
    cases hi : sresp.items with
    | nil =>
      rw [statsMiss_live_notfound _ g env c now sresp hk hs hi]
      simp [resStatus]
    | cons a l =>
      rw [statsMiss_live_ok _ g env c now sresp a l hk hs hi]
      simp [resStatus]
  · intro hh hf hk hs
    rw [resolve_miss_eq h Option.none g env c now resp rfl hh hf,
      resolveMiss_live_err h _ g env c now resp hk hs]
    exact ⟨rfl, pyTake_length_le _ _⟩
  · intro hf hk hs
    rw [stats_miss_eq cid g env c now sresp hf,
      statsMiss_live_err _ g env c now sresp hk hs]
    exact ⟨rfl, pyTake_length_le _ _⟩

/-- Witness for C8: no arguments at all yields 400; a 500-status statistics
lookup yields the 502 error carrying the (short) body excerpt. -/
theorem C8_error_model_witness :
    resStatus (resolve_channel_id Option.none Option.none (some "k")
        Option.none [] 0 ⟨200, "", []⟩).1 = some 400
    ∧ (get_channel_statistics "X" (some "k") Option.none [] 0
        ⟨500, "boom", []⟩).1
      = Except.error ⟨502, "YouTube API error: " ++ pyTake "boom" 200⟩ := by
  have h := C8_error_model Option.none Option.none (some "k") Option.none []
    0 ⟨200, "", []⟩ "@h" "X" ⟨500, "boom", []⟩
  exact ⟨h.1.mpr ⟨rfl, rfl⟩, (h.2.2.2.2 rfl (by decide) (by decide)).1⟩

/-- Claim C10: a cached value that is Python-falsy (the stored `None` of
`get_uploads_playlist_id`, an empty list, an empty string) fails the
`if cached:` guard within the TTL window, so every operation behaves exactly
— same result and same effect trace, including the repeated fallback or
upstream fetch — as if the entry were absent. -/
theorem C10_falsy_cached_is_miss (h cid : String) (m : Int)
    (g env : Option String) (c : Cache) (now ts : Nat) (v : Value)
    (resp : ChannelsIdResponse) (stresp : StatsResponse)
    (uresp : UploadsResponse) (sresp : SearchResponse)
    (p1 : PopSearchResponse) (p2 : VideosResponse)
    (hv : truthyVal v = false) (hts : now - ts ≤ CACHE_TTL_SECONDS) :
    (h ≠ "" → cacheFind c ("resolve:" ++ h) = some ⟨ts, v⟩ →
      (resolve_channel_id (some h) Option.none g env c now resp).1
          = (resolve_channel_id (some h) Option.none g env
              (cacheErase c ("resolve:" ++ h)) now resp).1
        ∧ (resolve_channel_id (some h) Option.none g env c now resp).2.2
          = (resolve_channel_id (some h) Option.none g env
              (cacheErase c ("resolve:" ++ h)) now resp).2.2)
    ∧ (cacheFind c ("stats:" ++ cid) = some ⟨ts, v⟩ →
      (get_channel_statistics cid g env c now stresp).1
          = (get_channel_statistics cid g env
              (cacheErase c ("stats:" ++ cid)) now stresp).1
        ∧ (get_channel_statistics cid g env c now stresp).2.2
          = (get_channel_statistics cid g env
              (cacheErase c ("stats:" ++ cid)) now stresp).2.2)
    ∧ (cacheFind c ("uploads:" ++ cid) = some ⟨ts, v⟩ →
      (get_uploads_playlist_id cid g env c now uresp).1
          = (get_uploads_playlist_id cid g env
              (cacheErase c ("uploads:" ++ cid)) now uresp).1
        ∧ (get_uploads_playlist_id cid g env c now uresp).2.2
          = (get_uploads_playlist_id cid g env
              (cacheErase c ("uploads:" ++ cid)) now uresp).2.2)
    ∧ (cacheFind c ("latest:" ++ cid ++ ":" ++ toString m) = some ⟨ts, v⟩ →
      (get_latest_videos cid m g env c now sresp).1
          = (get_latest_videos cid m g env
              (cacheErase c ("latest:" ++ cid ++ ":" ++ toString m)) now
              sresp).1
        ∧ (get_latest_videos cid m g env c now sresp).2.2
          = (get_latest_videos cid m g env
              (cacheErase c ("latest:" ++ cid ++ ":" ++ toString m)) now
              sresp).2.2)
    ∧ (cacheFind c ("popular:" ++ cid ++ ":" ++ toString m) = some ⟨ts, v⟩ →
      (get_popular_videos cid m g env c now p1 p2).1
          = (get_popular_videos cid m g env
              (cacheErase c ("popular:" ++ cid ++ ":" ++ toString m)) now p1
              p2).1
        ∧ (get_popular_videos cid m g env c now p1 p2).2.2
          = (get_popular_videos cid m g env
              (cacheErase c ("popular:" ++ cid ++ ":" ++ toString m)) now p1
              p2).2.2) := by
  refine ⟨?_, ?_, ?_, ?_, ?_⟩
  · intro hh hf
    rw [resolve_missFalsy_eq h Option.none g env c now resp ⟨ts, v⟩ rfl hh hf
        hts hv,
      resolve_miss_eq h Option.none g env (cacheErase c ("resolve:" ++ h))
        now resp rfl hh (cacheFind_erase_self c ("resolve:" ++ h))]
    exact resolveMiss_cache_indep h ("resolve:" ++ h) g env c
      (cacheErase c ("resolve:" ++ h)) now resp
  · intro hf
    rw [stats_missFalsy_eq cid g env c now stresp ⟨ts, v⟩ hf hts hv,
      stats_miss_eq cid g env (cacheErase c ("stats:" ++ cid)) now stresp
        (cacheFind_erase_self c ("stats:" ++ cid))]
    exact statsMiss_cache_indep ("stats:" ++ cid) g env c
      (cacheErase c ("stats:" ++ cid)) now stresp
  · intro hf
    rw [uploads_missFalsy_eq cid g env c now uresp ⟨ts, v⟩ hf hts hv,
      uploads_miss_eq cid g env (cacheErase c ("uploads:" ++ cid)) now uresp
        (cacheFind_erase_self c ("uploads:" ++ cid))]
    exact uploadsMiss_cache_indep cid ("uploads:" ++ cid) g env c
      (cacheErase c ("uploads:" ++ cid)) now uresp
  · intro hf
    rw [latest_missFalsy_eq cid m g env c now sresp ⟨ts, v⟩ hf hts hv,
      latest_miss_eq cid m g env
        (cacheErase c ("latest:" ++ cid ++ ":" ++ toString m)) now sresp
        (cacheFind_erase_self c ("latest:" ++ cid ++ ":" ++ toString m))]
    exact latestMiss_cache_indep ("latest:" ++ cid ++ ":" ++ toString m) m g
      env c (cacheErase c ("latest:" ++ cid ++ ":" ++ toString m)) now sresp
  · intro hf
    rw [popular_missFalsy_eq cid m g env c now p1 p2 ⟨ts, v⟩ hf hts hv,
      popular_miss_eq cid m g env
        (cacheErase c ("popular:" ++ cid ++ ":" ++ toString m)) now p1 p2
        (cacheFind_erase_self c ("popular:" ++ cid ++ ":" ++ toString m))]
    exact popularMiss_cache_indep ("popular:" ++ cid ++ ":" ++ toString m) m
      g env c (cacheErase c ("popular:" ++ cid ++ ":" ++ toString m)) now p1
      p2

/-- Witness for C10: `get_uploads_playlist_id` with the stored `None` under
its key behaves exactly like a cache miss. -/
theorem C10_falsy_cached_is_miss_witness :
    (get_uploads_playlist_id "X" (some "k") Option.none
        [("uploads:X", ⟨0, Value.none⟩)] 100 ⟨200, "", []⟩).1
      = (get_uploads_playlist_id "X" (some "k") Option.none
          (cacheErase [("uploads:X", ⟨0, Value.none⟩)] "uploads:X") 100
          ⟨200, "", []⟩).1
    ∧ (get_uploads_playlist_id "X" (some "k") Option.none
        [("uploads:X", ⟨0, Value.none⟩)] 100 ⟨200, "", []⟩).2.2
      = (get_uploads_playlist_id "X" (some "k") Option.none
          (cacheErase [("uploads:X", ⟨0, Value.none⟩)] "uploads:X") 100
          ⟨200, "", []⟩).2.2 :=
  (C10_falsy_cached_is_miss "@h" "X" 6 (some "k") Option.none
    [("uploads:X", ⟨0, Value.none⟩)] 100 0 Value.none ⟨200, "", []⟩
    ⟨200, "", []⟩ ⟨200, "", []⟩ ⟨200, "", []⟩ ⟨200, "", []⟩ ⟨200, "", []⟩
    rfl (by decide)).2.2.1 rfl
